import Mathlib

/-!
Shallow embedding of the DucoBox repository (src/duco/ducobox.py): the
device taxonomy, the line-protocol reply parsing, the sampling procedures,
the network-session state machine and the persistence layer, together with
theorems settling the specification claims.

Python floats are modelled as rationals; the serial transport is modelled
as an oracle function from command strings to reply strings; a raised
exception is modelled as `none` of an `Option` result.
-/

set_option autoImplicit false

namespace Duco

/-! ### A small regex interpreter

The source parses replies with `re.compile(regex).search(reply)`.  The
regexes appearing in the source use only literals, `\s*`, `.*`, `$`, and
greedy named groups `(?P<g>\d+)`, `(?P<g>\w+)`, `(?P<g>.+)`.  We embed
exactly those constructs: a pattern is a token list, matched with
leftmost-then-greedy backtracking, like Python's engine on these patterns.
-/

/-- Python `\s` (ASCII whitespace as produced by the protocol replies). -/
def isSpaceChar (c : Char) : Bool :=
  c = ' ' || c = '\t' || c = '\n' || c = '\r' || c = '\x0b' || c = '\x0c'

/-- Python `\d`. -/
def isDigitChar (c : Char) : Bool := '0' ≤ c && c ≤ '9'

/-- Python `\w` (ASCII portion, which is all the kind tags use). -/
def isWordChar (c : Char) : Bool := c.isAlphanum || c = '_'

/-- Python `.` without DOTALL: any character except a newline. -/
def isDotChar (c : Char) : Bool := c ≠ '\n'

/-- Character class of a repeated capture group. -/
inductive GrpClass where
  | digit  -- \d+
  | word   -- \w+
  | anyc   -- .+
deriving DecidableEq, Repr

def GrpClass.fn : GrpClass → Char → Bool
  | .digit => isDigitChar
  | .word => isWordChar
  | .anyc => isDotChar

/-- One token of a compiled pattern. -/
inductive Tok where
  | lit (s : String)                      -- literal text
  | wsStar                                -- \s*
  | anyStar                               -- .*
  | grp (g : String) (cls : GrpClass)     -- (?P<g>cls+), greedy, at least one char
  | eol                                   -- $
deriving Repr

/-- Length of the maximal prefix satisfying `p` (how far a greedy
repetition can reach). -/
def runLen (p : Char → Bool) : List Char → Nat
  | [] => 0
  | c :: cs => if p c then runLen p cs + 1 else 0

/-- Greedy disjunction: try `f n`, then `f (n-1)`, ..., then `f 0`. -/
def firstSome {α : Type} (f : Nat → Option α) : Nat → Option α
  | 0 => f 0
  | n + 1 => (f (n + 1)).orElse (fun _ => firstSome f n)

/-- Greedy disjunction for a `+` repetition: try `f n` down to `f 1`. -/
def firstSomePos {α : Type} (f : Nat → Option α) : Nat → Option α
  | 0 => none
  | n + 1 => (f (n + 1)).orElse (fun _ => firstSomePos f n)

/-- Named captures of a match. -/
abbrev Caps := List (String × String)

/-- Match a token list against (a suffix of) the subject, returning the
named captures on success.  Greedy with backtracking, like Python's
engine restricted to these constructs. -/
def matchSeq : List Tok → List Char → Option Caps
  | [], _ => some []
  | .lit l :: rest, s =>
      if l.data.isPrefixOf s then matchSeq rest (s.drop l.data.length) else none
  | .wsStar :: rest, s =>
      firstSome (fun k => matchSeq rest (s.drop k)) (runLen isSpaceChar s)
  | .anyStar :: rest, s =>
      firstSome (fun k => matchSeq rest (s.drop k)) (runLen isDotChar s)
  | .grp g cls :: rest, s =>
      firstSomePos
        (fun k => (matchSeq rest (s.drop k)).map (fun caps => (g, String.mk (s.take k)) :: caps))
        (runLen cls.fn s)
  | .eol :: rest, s =>
      if s = [] ∨ s = ['\n'] then matchSeq rest s else none

/-- `re.search`: try a match at every position, leftmost first. -/
def searchCaps (toks : List Tok) : List Char → Option Caps
  | [] => matchSeq toks []
  | c :: t =>
    match matchSeq toks (c :: t) with
    | some caps => some caps
    | none => searchCaps toks t

/-- `match.group(g)`. -/
def capLookup (caps : Caps) (g : String) : Option String :=
  (caps.find? (fun p => p.1 == g)).map Prod.snd

/-- `DucoNode._parse_reply(reply, regex, group)`: search the reply for the
pattern and extract the named group; `none` when the pattern misses. -/
def parseReply (reply : String) (toks : List Tok) (group : String) : Option String :=
  (searchCaps toks reply.data).bind (fun caps => capLookup caps group)

/-! ### The compiled patterns of the source -/

/-- `DucoNode.PARAGET_REGEX`, the pattern `-->\s*(?P<value>\d+)`. -/
def PARAGET_REGEX : List Tok := [.lit "-->", .wsStar, .grp "value" .digit]

/-- `DucoBox.MATCH_FAN_SPEED`, `Actual\s*(?P<actual>\d+).*Filtered\s*(?P<filtered>\d+)`. -/
def MATCH_FAN_SPEED : List Tok :=
  [.lit "Actual", .wsStar, .grp "actual" .digit, .anyStar,
   .lit "Filtered", .wsStar, .grp "filtered" .digit]

/-- `DucoBox.MATCH_BOOT_SOFTWARE`, `BootSW\s*:\s*(?P<bootsw>.+)`. -/
def MATCH_BOOT_SOFTWARE : List Tok :=
  [.lit "BootSW", .wsStar, .lit ":", .wsStar, .grp "bootsw" .anyc]

/-- `DucoBox.MATCH_SERIAL`, `Serial\s*:\s*(?P<serial>.+)`. -/
def MATCH_SERIAL : List Tok :=
  [.lit "Serial", .wsStar, .lit ":", .wsStar, .grp "serial" .anyc]

/-- `DucoBox.MATCH_BOARD_NAME`, `Board\s*:\s*(?P<board>.+)`. -/
def MATCH_BOARD_NAME : List Tok :=
  [.lit "Board", .wsStar, .lit ":", .wsStar, .grp "board" .anyc]

/-- `DucoBox.MATCH_BOARD_TYPE`, `Type\s*:\s*(?P<type>.+)`. -/
def MATCH_BOARD_TYPE : List Tok :=
  [.lit "Type", .wsStar, .lit ":", .wsStar, .grp "type" .anyc]

/-- `DucoBox.MATCH_DEVICE_ID`, `DevId\s*:\s*(?P<deviceid>.+)`. -/
def MATCH_DEVICE_ID : List Tok :=
  [.lit "DevId", .wsStar, .lit ":", .wsStar, .grp "deviceid" .anyc]

/-- `DucoUserControlHumiditySensor.MATCH_SENSOR_INFO_HUMIDITY`,
`RH\s*\:\s*(?P<humidity>\d+)`. -/
def MATCH_SENSOR_INFO_HUMIDITY : List Tok :=
  [.lit "RH", .wsStar, .lit ":", .wsStar, .grp "humidity" .digit]

/-- `DucoUserControlHumiditySensor.MATCH_SENSOR_INFO_TEMPERATURE`,
`TEMP\s*\:\s*(?P<temperature>\d+)`. -/
def MATCH_SENSOR_INFO_TEMPERATURE : List Tok :=
  [.lit "TEMP", .wsStar, .lit ":", .wsStar, .grp "temperature" .digit]

/-- `DucoInterface.MATCH_NETWORK_COMMAND`,
`^\s*(?P<node>\d+)\s*\|\s*(?P<address>\d+)\s*\|\s*(?P<kind>\w+).*$`.
Because of the `^` anchor (and no MULTILINE flag), `search` on a line can
only match at position 0, so this pattern is applied with `matchSeq`
directly rather than `searchCaps`. -/
def MATCH_NETWORK_COMMAND : List Tok :=
  [.wsStar, .grp "node" .digit, .wsStar, .lit "|", .wsStar, .grp "address" .digit,
   .wsStar, .lit "|", .wsStar, .grp "kind" .word, .anyStar, .eol]

/-! ### Python float conversion on protocol values

`float(value)` is applied to the strings captured by the patterns above;
every string fed to it by the program is a nonempty digit string (a `\d+`
capture).  We model the conversion on digit strings; `none` models the
`ValueError` that any other string would raise. -/

def digitsToNat (cs : List Char) : Nat :=
  cs.foldl (fun a c => a * 10 + (c.toNat - 48)) 0

def isDigitStr (s : String) : Bool :=
  !s.data.isEmpty && s.data.all isDigitChar

/-- `float(s)` restricted to the digit strings the protocol produces. -/
def pyFloat (s : String) : Option ℚ :=
  if isDigitStr s then some ((digitsToNat s.data : ℚ)) else none

/-! ### Parameters (`DucoNodeParameter` and its subclasses) -/

/-- `DucoNodeParameter` (with the `getter_id` of the `DucoNodeParaGetParameter`
subclass as an optional field: `none` for a plain parameter such as the fan
speed, for which reading `getter_id` would raise `AttributeError`). -/
structure DucoNodeParameter where
  name : String
  unit : String
  scaling : ℚ
  getterId : Option Nat
  value : Option ℚ
deriving DecidableEq, Repr

/-- `DucoNodeParameter.set_value`: stores `float(value) / scaling` and
returns it.  The `float` conversion of a captured string is applied by the
caller in this embedding (the source applies it on entry here). -/
def DucoNodeParameter.set_value (p : DucoNodeParameter) (raw : ℚ) : ℚ × DucoNodeParameter :=
  let val := raw / p.scaling
  (val, { p with value := some val })

/-- `DucoNodeParameter.get_value`. -/
def DucoNodeParameter.get_value (p : DucoNodeParameter) : Option ℚ := p.value

/-- `DucoNodeFanSpeed()`: name `fanspeed`, unit rpm, scaling 1, no getter id. -/
def fanSpeedParameter : DucoNodeParameter :=
  { name := "fanspeed", unit := "rpm", scaling := 1, getterId := none, value := none }

/-- `DucoNodeHumidityParaGet()`: unit `%`, scaling 100, paraget id 75. -/
def humidityParaGet : DucoNodeParameter :=
  { name := "humidity", unit := "%", scaling := 100, getterId := some 75, value := none }

/-- `DucoNodeCO2ParaGet()`: unit ppm, scaling 1, paraget id 74. -/
def co2ParaGet : DucoNodeParameter :=
  { name := "CO2", unit := "ppm", scaling := 1, getterId := some 74, value := none }

/-- `DucoNodeTemperatureParaGet()`: unit degC, scaling 10, paraget id 73. -/
def temperatureParaGet : DucoNodeParameter :=
  { name := "temperature", unit := "degC", scaling := 10, getterId := some 73, value := none }

/-! ### The device taxonomy -/

/-- The concrete classes of the `DucoNode` hierarchy that can be
instantiated by `add_node` (`generic` is the `DucoNode` base class itself;
the three `DucoNodeWith*` mixins are listed because `get_subclasses`
enumerates them, with `KIND` inherited as `None`). -/
inductive Kind where
  | generic | box | uc | ucbat | ucrh | ucco2 | vlv | vlvrh | vlvco2 | switch | clima
  | withTemperature | withHumidity | withCO2
deriving DecidableEq, Repr

/-- Python class name, used for the default device name `My {classname}`. -/
def Kind.className : Kind → String
  | .generic => "DucoNode"
  | .box => "DucoBox"
  | .uc => "DucoUserControl"
  | .ucbat => "DucoUserControlBattery"
  | .ucrh => "DucoUserControlHumiditySensor"
  | .ucco2 => "DucoUserControlCO2Sensor"
  | .vlv => "DucoValve"
  | .vlvrh => "DucoValveHumiditySensor"
  | .vlvco2 => "DucoValveCO2Sensor"
  | .switch => "DucoSwitch"
  | .clima => "DucoGrille"
  | .withTemperature => "DucoNodeWithTemperature"
  | .withHumidity => "DucoNodeWithHumidity"
  | .withCO2 => "DucoNodeWithCO2"

/-- The parameter set a constructor builds, in insertion order of
`self.parameters` along the MRO chain of `__init__` calls (the deepest
`__init__` inserts first, so e.g. UCRH holds temperature then humidity). -/
def Kind.initParameters : Kind → List DucoNodeParameter
  | .generic => []
  | .box => [fanSpeedParameter]
  | .uc => []
  | .ucbat => []
  | .ucrh => [temperatureParaGet, humidityParaGet]
  | .ucco2 => [temperatureParaGet, co2ParaGet]
  | .vlv => []
  | .vlvrh => [temperatureParaGet, humidityParaGet]
  | .vlvco2 => [temperatureParaGet, co2ParaGet]
  | .switch => []
  | .clima => [temperatureParaGet]
  | .withTemperature => [temperatureParaGet]
  | .withHumidity => [temperatureParaGet, humidityParaGet]
  | .withCO2 => [temperatureParaGet, co2ParaGet]

/-- Board information parsed by `DucoBox._store_board_info`. -/
structure BoardInfo where
  bootSoftware : Option String
  serial : Option String
  boardName : Option String
  boardType : Option String
  deviceId : Option String
deriving DecidableEq, Repr

/-- A `DucoNode` object.  `boardInfo` is populated for BOX devices at
construction time (the five extra attributes of `DucoBox.__init__`). -/
structure DucoNode where
  kind : Kind
  number : String
  address : String
  name : String
  blacklist : Bool
  parameters : List DucoNodeParameter
  boardInfo : Option BoardInfo
deriving DecidableEq, Repr

/-- The part of `DucoNode.__init__` common to all kinds: stores number and
address (as strings), the default name `My {classname}`, a false blacklist
flag, and the parameter set built by the concrete constructor chain. -/
def ducoNodeInit (k : Kind) (number address : String) : DucoNode :=
  { kind := k
    number := number
    address := address
    name := "My " ++ k.className
    blacklist := false
    parameters := k.initParameters
    boardInfo := none }

/-- `self.parameters[parameter]` lookup (`none` models a missing key). -/
def DucoNode.findParam (n : DucoNode) (nm : String) : Option DucoNodeParameter :=
  n.parameters.find? (fun p => p.name == nm)

/-- Update of `self.parameters[parameter]` with a newly scaled value
(parameter names are unique within one device). -/
def setParamValue (ps : List DucoNodeParameter) (nm : String) (raw : ℚ) : List DucoNodeParameter :=
  ps.map (fun p => if p.name == nm then (p.set_value raw).2 else p)

/-- `DucoNode.set_value(parameter, value)`: does nothing when `value` is
`None` or the name is not an owned parameter; otherwise stores the scaled
value into the parameter and calls `interface.store_sample` once.  The
returned list is the trace of `store_sample` calls `(parameter, scaled)`;
`none` models the `ValueError` that `float()` would raise on a
non-numeric string. -/
def DucoNode.set_value (n : DucoNode) (parameter : String) (value : Option String) :
    Option (DucoNode × List (String × ℚ)) :=
  match value with
  | none => some (n, [])
  | some v =>
    match n.findParam parameter with
    | none => some (n, [])
    | some p =>
      match pyFloat v with
      | none => none
      | some raw =>
        some ({ n with parameters := setParamValue n.parameters parameter raw },
              [(parameter, (p.set_value raw).1)])

/-- `DucoNode.get_value(parameter)`: the parameter value, or `None` when
the parameter is not owned. -/
def DucoNode.get_value (n : DucoNode) (parameter : String) : Option ℚ :=
  match n.findParam parameter with
  | some p => p.get_value
  | none => none

/-! ### Sampling

A device samples through its bound `DucoInterface`.  For sampling, only
two pieces of interface state matter: whether a serial port is open
(`execute_command` returns the empty reply when it is not) and the
extended flag.  The serial line itself is an oracle `io` from command
strings to reply strings. -/

/-- The interface state a node observes while sampling. -/
structure NodeItf where
  serialOpen : Bool
  extended : Bool
deriving DecidableEq, Repr

/-- `DucoInterface.execute_command`: sends the command and returns the
reply, or the empty string when no serial device is bound. -/
def execCmd (itf : NodeItf) (io : String → String) (cmd : String) : String :=
  if itf.serialOpen then io cmd else ""

/-- `DucoNode.PARAGET_COMMAND.format(node=..., para=...)`. -/
def paragetCommand (node : String) (para : Nat) : String :=
  "nodeparaget " ++ node ++ " " ++ toString para

/-- Result of one `sample()` call: the mutated node, the trace of
`execute_command` invocations, and the trace of `store_sample`
invocations. -/
structure SampleOut where
  node : DucoNode
  cmds : List String
  sinks : List (String × ℚ)
deriving Repr

/-- The loop body of the default `DucoNode._perform_sample`: iterate the
parameter names, issue `nodeparaget <number> <getter_id>` for each, parse
the reply with the value-extraction pattern, and store via `set_value`.
`none` models an exception (a parameter without a `getter_id`, or a
`float()` failure). -/
def sampleLoop (itf : NodeItf) (io : String → String) : List String → DucoNode → Option SampleOut
  | [], n => some ⟨n, [], []⟩
  | nm :: rest, n =>
    match n.findParam nm with
    | none => none
    | some p =>
      match p.getterId with
      | none => none
      | some gid =>
        let cmd := paragetCommand n.number gid
        let reply := execCmd itf io cmd
        let value := parseReply reply PARAGET_REGEX "value"
        match n.set_value nm value with
        | none => none
        | some (n', evs) =>
          (sampleLoop itf io rest n').map (fun out =>
            ⟨out.node, cmd :: out.cmds, evs ++ out.sinks⟩)

/-- `DucoNode._perform_sample` (default): one `nodeparaget` command per
owned parameter, in parameter insertion order. -/
def performSampleDefault (itf : NodeItf) (io : String → String) (n : DucoNode) :
    Option SampleOut :=
  sampleLoop itf io (n.parameters.map (fun p => p.name)) n

/-- `DucoBox._perform_sample`: one `fanspeed` command; the `filtered`
field of the reply becomes the fanspeed parameter value. -/
def performSampleBox (itf : NodeItf) (io : String → String) (n : DucoNode) :
    Option SampleOut :=
  let reply := execCmd itf io "fanspeed"
  let speed := parseReply reply MATCH_FAN_SPEED "filtered"
  (n.set_value "fanspeed" speed).map (fun r => ⟨r.1, ["fanspeed"], r.2⟩)

/-- `DucoUserControlHumiditySensor._perform_sample`: delegates to the
default procedure when the interface is extended; otherwise one
`sensorinfo` command, from whose reply humidity and temperature are each
extracted with their own pattern. -/
def performSampleUcrh (itf : NodeItf) (io : String → String) (n : DucoNode) :
    Option SampleOut :=
  if itf.extended then performSampleDefault itf io n
  else
    let reply := execCmd itf io "sensorinfo"
    let humidity := parseReply reply MATCH_SENSOR_INFO_HUMIDITY "humidity"
    (n.set_value "humidity" humidity).bind (fun r1 =>
      let temperature := parseReply reply MATCH_SENSOR_INFO_TEMPERATURE "temperature"
      (r1.1.set_value "temperature" temperature).map (fun r2 =>
        ⟨r2.1, ["sensorinfo"], r1.2 ++ r2.2⟩))

/-- `_perform_sample` dispatch by concrete class. -/
def performSample (itf : NodeItf) (io : String → String) (n : DucoNode) :
    Option SampleOut :=
  match n.kind with
  | .box => performSampleBox itf io n
  | .ucrh => performSampleUcrh itf io n
  | _ => performSampleDefault itf io n

/-- `DucoNode.sample`: a no-op for a blacklisted device or when no
interface is bound; otherwise runs the kind-specific procedure. -/
def DucoNode.sample (itf : Option NodeItf) (io : String → String) (n : DucoNode) :
    Option SampleOut :=
  if n.blacklist then some ⟨n, [], []⟩
  else
    match itf with
    | some i => performSample i io n
    | none => some ⟨n, [], []⟩

/-- `sample()` called `k` times in a row, accumulating both traces. -/
def sampleTimes (itf : Option NodeItf) (io : String → String) :
    Nat → DucoNode → Option SampleOut
  | 0, n => some ⟨n, [], []⟩
  | k + 1, n =>
    (DucoNode.sample itf io n).bind (fun out =>
      (sampleTimes itf io k out.node).map (fun rest =>
        ⟨rest.node, out.cmds ++ rest.cmds, out.sinks ++ rest.sinks⟩))

/-! ### Persistence (`ConfigParser`, `_store`, `_load`, `store`, `load`)

The configuration store is the external INI-like key-value file of §6 of
the spec: a sequence of named sections, each a sequence of string-valued
options.  `ConfigParser.write` followed by `read` transports the section
and option strings verbatim, so the file is identified with the parser
content here. -/

/-- A `ConfigParser`: sections in insertion order, options per section in
insertion order.  (`add_section` rejects duplicates, so section names are
unique in every parser the program builds.) -/
structure CfgParser where
  sections : List (String × List (String × String))
deriving DecidableEq, Repr

/-- `ConfigParser()`. -/
def CfgParser.empty : CfgParser := ⟨[]⟩

def CfgParser.hasSection (cfg : CfgParser) (sec : String) : Bool :=
  cfg.sections.any (fun s => s.1 == sec)

/-- `cfgparser.get(section, option)`: `none` models `NoSectionError` or
`NoOptionError`. -/
def CfgParser.get (cfg : CfgParser) (sec key : String) : Option String :=
  (cfg.sections.find? (fun s => s.1 == sec)).bind
    (fun s => (s.2.find? (fun o => o.1 == key)).map Prod.snd)

/-- `cfgparser.add_section(section)`: `none` models
`DuplicateSectionError`. -/
def CfgParser.addSection (cfg : CfgParser) (sec : String) : Option CfgParser :=
  if cfg.hasSection sec then none
  else some ⟨cfg.sections ++ [(sec, [])]⟩

/-- A value handed to `ConfigParser.set`: `_store` passes strings for
name, number and address, and the raw Python `bool` for blacklist. -/
inductive PyValue where
  | pyStr (s : String)
  | pyBool (b : Bool)
deriving DecidableEq, Repr

/-- `cfgparser.set(section, option, value)` as the `configparser` module
the source imports first (Python 3) behaves: `_validate_value_types`
raises `TypeError` for any non-string value, modeled as `none`; a string
value replaces the option or appends it to the (existing) section.  The
interpolation syntax check on percent signs is not modeled: every string
value reaching `set` in the theorems below is percent-free. -/
def CfgParser.set (cfg : CfgParser) (sec key : String) : PyValue → Option CfgParser
  | .pyStr val =>
    some ⟨cfg.sections.map (fun s =>
      if s.1 == sec then
        (s.1, if s.2.any (fun o => o.1 == key)
              then s.2.map (fun o => if o.1 == key then (o.1, val) else o)
              else s.2 ++ [(key, val)])
      else s)⟩
  | .pyBool _ => none

/-- ASCII lower-casing, as `str.lower` behaves on the stored values. -/
def lowerChar (c : Char) : Char :=
  if 'A' ≤ c ∧ c ≤ 'Z' then Char.ofNat (c.toNat + 32) else c

def lowerStr (s : String) : String := String.mk (s.data.map lowerChar)

/-- `cfgparser.getboolean` value conversion: case-insensitive lookup in
the boolean-states table; `none` models the `ValueError` on any other
string (which `_load` does NOT catch). -/
def pyBoolParse (s : String) : Option Bool :=
  let t := lowerStr s
  if t = "1" ∨ t = "yes" ∨ t = "true" ∨ t = "on" then some true
  else if t = "0" ∨ t = "no" ∨ t = "false" ∨ t = "off" then some false
  else none

/-- `DucoNode._store(cfgparser)`: adds section `Node{number}` and writes
the four identity fields, passing `self.blacklist` — a bool — as the
fourth value, exactly as the source does.  `none` models an uncaught
exception: `DuplicateSectionError` when two devices share a number, or
the `TypeError` that `set` raises on the boolean blacklist value. -/
def DucoNode.nodeStore (n : DucoNode) (cfg : CfgParser) : Option CfgParser :=
  let sec := "Node" ++ n.number
  (cfg.addSection sec).bind (fun c =>
    (c.set sec "name" (.pyStr n.name)).bind (fun c =>
      (c.set sec "number" (.pyStr n.number)).bind (fun c =>
        (c.set sec "address" (.pyStr n.address)).bind (fun c =>
          c.set sec "blacklist" (.pyBool n.blacklist)))))

/-- `DucoNode._load(cfgparser)`: reads `name`, `number`, `address`,
`blacklist` in that order from section `Node{number}`; the first
`NoSectionError`/`NoOptionError` stops the assignments and is swallowed,
keeping the fields assigned so far.  `none` models the uncaught
`ValueError` from `getboolean` on a malformed stored value. -/
def DucoNode.nodeLoad (n : DucoNode) (cfg : CfgParser) : Option DucoNode :=
  let sec := "Node" ++ n.number
  match cfg.get sec "name" with
  | none => some n
  | some nm =>
    let n1 := { n with name := nm }
    match cfg.get sec "number" with
    | none => some n1
    | some nb =>
      let n2 := { n1 with number := nb }
      match cfg.get sec "address" with
      | none => some n2
      | some ad =>
        let n3 := { n2 with address := ad }
        match cfg.get sec "blacklist" with
        | none => some n3
        | some bs =>
          match pyBoolParse bs with
          | none => none
          | some b => some { n3 with blacklist := b }

/-- The `for node in self.nodes: node._store(cfgparser)` loop of
`DucoInterface.store`. -/
def storeNodes (cfg : CfgParser) : List DucoNode → Option CfgParser
  | [] => some cfg
  | n :: rest => (n.nodeStore cfg).bind (fun c => storeNodes c rest)

/-- Outcome of `DucoInterface.store`. -/
inductive StoreOutcome where
  | skipped                  -- no configuration file bound: warned and skipped
  | stored (cfg : CfgParser) -- file written
  | raised                   -- an uncaught exception propagated (TypeError,
                             -- DuplicateSectionError)
deriving Repr

/-- `DucoInterface.store()`: skipped (with a warning) when no
configuration file is bound, otherwise stores every node into a fresh
parser and writes it out. -/
def interfaceStore (cfgfile : Option String) (nodes : List DucoNode) : StoreOutcome :=
  match cfgfile with
  | none => .skipped
  | some _ =>
    match storeNodes CfgParser.empty nodes with
    | some cfg => .stored cfg
    | none => .raised

/-- `DucoInterface.load()`: runs `_load` on every node against the read
configuration; `none` models a propagated `ValueError`. -/
def interfaceLoad (cfg : CfgParser) : List DucoNode → Option (List DucoNode)
  | [] => some []
  | n :: rest =>
    (n.nodeLoad cfg).bind (fun n1 =>
      (interfaceLoad cfg rest).map (fun rest1 => n1 :: rest1))

/-! ### The network session (`DucoInterface`) -/

/-- `DucoNode.get_subclasses()` on `DucoNode`, with each yielded class
paired with its `KIND` attribute.  The enumeration is the depth-first
postorder of `__subclasses__()` in class-definition order; the diamond
mixins are yielded once per inheritance path (UCRH three times, UCCO2,
VLVRH and VLVCO2 twice each), exactly as the generator does. -/
def nodeSubclasses : List (Kind × Option String) :=
  [(.box, some "BOX"),
   (.ucrh, some "UCRH"), (.ucco2, some "UCCO2"), (.vlvrh, some "VLVRH"),
   (.vlvco2, some "VLVCO2"), (.clima, some "CLIMA"), (.withTemperature, none),
   (.ucrh, some "UCRH"), (.vlvrh, some "VLVRH"), (.withHumidity, none),
   (.ucco2, some "UCCO2"), (.vlvco2, some "VLVCO2"), (.withCO2, none),
   (.ucbat, some "UCBAT"), (.ucrh, some "UCRH"), (.uc, some "UC"),
   (.vlv, some "VLV"), (.switch, some "SWITCH")]

/-- The class-selection loop of `DucoInterface.add_node`: start from the
base class and take the last enumerated subclass whose `KIND` equals the
tag. -/
def kindForTag (tag : String) : Kind :=
  nodeSubclasses.foldl (fun acc p => if p.2 == some tag then p.1 else acc) .generic

/-- The parsing part of `DucoBox._store_board_info`: the five
labeled-field patterns applied independently to the `boardinfo` reply. -/
def storeBoardInfo (reply : String) : BoardInfo :=
  { bootSoftware := parseReply reply MATCH_BOOT_SOFTWARE "bootsw"
    serial := parseReply reply MATCH_SERIAL "serial"
    boardName := parseReply reply MATCH_BOARD_NAME "board"
    boardType := parseReply reply MATCH_BOARD_TYPE "type"
    deviceId := parseReply reply MATCH_DEVICE_ID "deviceid" }

/-- Substring test (`"BASIC" not in self.board_name`, negated). -/
def listContainsSub (needle : List Char) : List Char → Bool
  | [] => needle.isEmpty
  | c :: cs => needle.isPrefixOf (c :: cs) || listContainsSub needle cs

def strContains (haystack needle : String) : Bool :=
  listContainsSub needle.data haystack.data

/-- The condition under which `_store_board_info` calls `set_extended`:
`if self.board_name and "BASIC" not in self.board_name`. -/
def BoardInfo.makesExtended (b : BoardInfo) : Bool :=
  match b.boardName with
  | some nm => !(nm == "") && !(strContains nm "BASIC")
  | none => false

/-- State of a `DucoInterface` (the serial handle is reduced to whether
the port opened; the transport itself is the oracle passed to each
operation). -/
structure DucoItf where
  nodes : List DucoNode
  live : Bool
  extended : Bool
  serialOpen : Bool
  cfgfile : Option String
deriving Repr

/-- `DucoInterface.__init__`: empty node list, offline, not extended. -/
def itfInit (serialOpen : Bool) (cfgfile : Option String) : DucoItf :=
  { nodes := [], live := false, extended := false,
    serialOpen := serialOpen, cfgfile := cfgfile }

/-- The sampling view a bound node has of the interface. -/
def DucoItf.view (s : DucoItf) : NodeItf := ⟨s.serialOpen, s.extended⟩

/-- `DucoInterface.add_node(kind, number, address)`: picks the concrete
class for the kind tag (warning instead for an unknown tag, falling back
to the generic class), instantiates it — for a BOX this issues the
`boardinfo` command and possibly flips the extended flag — and appends
the node.  Returns the new state, the node, and whether the
unknown-kind warning was logged. -/
def addNode (io : String → String) (s : DucoItf) (kind number address : String) :
    DucoItf × DucoNode × Bool :=
  let k := kindForTag kind
  let warned := k == .generic
  match k with
  | .box =>
    let reply := execCmd s.view io "boardinfo"
    let bi := storeBoardInfo reply
    let node := { ducoNodeInit .box number address with boardInfo := some bi }
    ({ s with nodes := s.nodes ++ [node],
              extended := if bi.makesExtended then true else s.extended },
     node, warned)
  | _ =>
    let node := ducoNodeInit k number address
    ({ s with nodes := s.nodes ++ [node] }, node, warned)

/-- One line of the `network` reply, matched against the anchored
network-listing pattern, yielding `(node, address, kind)` groups. -/
def matchNetworkLine (line : String) : Option (String × String × String) :=
  (matchSeq MATCH_NETWORK_COMMAND line.data).bind (fun caps =>
    (capLookup caps "node").bind (fun no =>
      (capLookup caps "address").bind (fun ad =>
        (capLookup caps "kind").map (fun kd => (no, ad, kd)))))

/-- `DucoInterface.find_nodes()`: when a serial port is open, issue the
`network` command, and for every reply line that matches the listing
pattern add a node and go online. -/
def findNodes (io : String → String) (s : DucoItf) : DucoItf :=
  if s.serialOpen then
    let reply := execCmd s.view io "network"
    (reply.splitOn "\n").foldl (fun acc line =>
      match matchNetworkLine line with
      | some (no, ad, kd) => { (addNode io acc kd no ad).1 with live := true }
      | none => acc) s
  else s

/-- `DucoInterface.sample()`: when online, sample every node in insertion
order (each node holds the interface, so sampling sees an open-or-not
serial port and the extended flag); `none` models a propagated
exception. -/
def itfSample (io : String → String) (s : DucoItf) : Option DucoItf :=
  if s.live then
    (s.nodes.mapM (fun n => (DucoNode.sample (some s.view) io n).map SampleOut.node)).map
      (fun ns => { s with nodes := ns })
  else some s

/-- The operations the program performs on a session after construction. -/
inductive ItfOp where
  | opFindNodes (io : String → String)
  | opAddNode (io : String → String) (kind number address : String)
  | opSample (io : String → String)
  | opLoad (cfg : CfgParser)
  | opStore

/-- Step function of the session state machine (`none` models a
propagated exception). -/
def applyItfOp : ItfOp → DucoItf → Option DucoItf
  | .opFindNodes io, s => some (findNodes io s)
  | .opAddNode io kd no ad, s => some (addNode io s kd no ad).1
  | .opSample io, s => itfSample io s
  | .opLoad cfg, s => (interfaceLoad cfg s.nodes).map (fun ns => { s with nodes := ns })
  | .opStore, s => some s  -- store() writes the file; the state is untouched

/-- A run of the state machine. -/
def applySeq : List ItfOp → DucoItf → Option DucoItf
  | [], s => some s
  | op :: rest, s => (applyItfOp op s).bind (applySeq rest)

/-- Whether a step can construct a BOX device whose board info marks the
session extended: an `add_node` with the BOX tag, or a discovery whose
network reply contains a BOX line, when the `boardinfo` reply carries a
board name without the substring BASIC. -/
def opExtendTrigger : ItfOp → DucoItf → Bool
  | .opAddNode io kd _ _, s =>
    kindForTag kd == .box &&
      (storeBoardInfo (execCmd s.view io "boardinfo")).makesExtended
  | .opFindNodes io, s =>
    s.serialOpen &&
      ((execCmd s.view io "network").splitOn "\n").any (fun line =>
        match matchNetworkLine line with
        | some (_, _, kd) => kindForTag kd == .box
        | none => false) &&
      (storeBoardInfo (execCmd s.view io "boardinfo")).makesExtended
  | .opSample _, _ => false
  | .opLoad _, _ => false
  | .opStore, _ => false

/-- The addresses appended to `nodes` by one discovery-family operation
(`add_node` appends the given address; `find_nodes` appends the address
group of every matching line). -/
def opAddedAddresses : ItfOp → DucoItf → List String
  | .opAddNode _ _ _ ad, _ => [ad]
  | .opFindNodes io, s =>
    if s.serialOpen then
      ((execCmd s.view io "network").splitOn "\n").filterMap (fun line =>
        (matchNetworkLine line).map (fun r => r.2.1))
    else []
  | _, _ => []

/-- The operations claim C2 quantifies over: discovery and `add_node`. -/
def ItfOp.isDiscovery : ItfOp → Prop
  | .opFindNodes _ => True
  | .opAddNode _ _ _ _ => True
  | _ => False

/-- All addresses appended over a run of the state machine. -/
def runAddedAddresses : List ItfOp → DucoItf → List String
  | [], _ => []
  | op :: rest, s =>
    opAddedAddresses op s ++
      (match applyItfOp op s with
       | some s' => runAddedAddresses rest s'
       | none => [])

/-- A pattern all of whose capture groups are `\d+` groups (true of the
value-extraction, fan-speed and sensor-info patterns). -/
def allDigitGrps (toks : List Tok) : Bool :=
  toks.all (fun t => match t with | .grp _ cls => cls == .digit | _ => true)

/-- A `DucoUserControlHumiditySensor` as its constructor builds it, with
arbitrary current values in its two parameters (the shape every UCRH
device has throughout its life: sampling only rewrites the values). -/
def ucrhWith (num addr : String) (v1 v2 : Option ℚ) : DucoNode :=
  { ducoNodeInit .ucrh num addr with
    parameters := [{ temperatureParaGet with value := v1 },
                   { humidityParaGet with value := v2 }] }

/-! ## Lemmas and claim theorems -/

theorem set_value_snd_name (p : DucoNodeParameter) (raw : ℚ) :
    (p.set_value raw).2.name = p.name := rfl

theorem set_value_snd_value (p : DucoNodeParameter) (raw : ℚ) :
    (p.set_value raw).2.value = some (raw / p.scaling) := rfl

/-- The per-parameter update preserves every parameter name pointwise. -/
theorem setParamValue_pred_name (nm other : String) (raw : ℚ) :
    ((fun p : DucoNodeParameter => p.name == other) ∘
      (fun p => if p.name == nm then (p.set_value raw).2 else p)) =
      (fun p : DucoNodeParameter => p.name == other) := by
  funext p
  by_cases hp : (p.name == nm) = true <;> simp [Function.comp, hp, set_value_snd_name]

/-- `find?` by name commutes with a `setParamValue` on a different name. -/
theorem find_setParamValue_ne (ps : List DucoNodeParameter) (nm other : String) (raw : ℚ)
    (h : other ≠ nm) :
    (setParamValue ps nm raw).find? (fun p => p.name == other) =
      ps.find? (fun p => p.name == other) := by
  unfold setParamValue
  rw [List.find?_map, setParamValue_pred_name]
  cases hf : ps.find? (fun p => p.name == other) with
  | none => rfl
  | some x =>
    have hx := List.find?_some hf
    have hxo : x.name = other := by simpa using hx
    have hxn : (x.name == nm) = false := by
      rw [hxo]
      exact beq_eq_false_iff_ne.mpr h
    simp [hxn]
    exact fun hcon => absurd hcon (by simpa using hxn)

/-- `find?` on the updated name returns the updated parameter. -/
theorem find_setParamValue_eq (ps : List DucoNodeParameter) (nm : String) (raw : ℚ) :
    (setParamValue ps nm raw).find? (fun p => p.name == nm) =
      (ps.find? (fun p => p.name == nm)).map (fun p => (p.set_value raw).2) := by
  unfold setParamValue
  rw [List.find?_map, setParamValue_pred_name]
  cases hf : ps.find? (fun p => p.name == nm) with
  | none => rfl
  | some x =>
    have hx := List.find?_some hf
    have hxn : (x.name == nm) = true := by simpa using hx
    simp [hxn]
    exact fun hcon => absurd (by simpa using hxn) hcon

/-- C6: for every parameter and numeric raw value with a positive scaling
divisor, `set_value(raw)` followed by `get_value()` returns
`raw / scaling`, and the value returned by `set_value` equals the stored
value. -/
theorem claim_c6 (p : DucoNodeParameter) (raw : ℚ) (h : 0 < p.scaling) :
    (p.set_value raw).2.get_value = some (raw / p.scaling) ∧
    (p.set_value raw).1 = raw / p.scaling := ⟨rfl, rfl⟩

/-- Witness for C6 at the humidity parameter and raw value 6837. -/
theorem claim_c6_witness :
    (0 : ℚ) < humidityParaGet.scaling ∧
      ((humidityParaGet.set_value 6837).2.get_value =
          some (6837 / humidityParaGet.scaling) ∧
        (humidityParaGet.set_value 6837).1 = 6837 / humidityParaGet.scaling) :=
  ⟨by norm_num [humidityParaGet], claim_c6 humidityParaGet 6837 (by norm_num [humidityParaGet])⟩

/-- C5: sampling a blacklisted device any number of times issues no
transport command, stores nothing to the sink, and leaves the device (in
particular every owned parameter value) unchanged. -/
theorem claim_c5 (n : DucoNode) (itf : Option NodeItf) (io : String → String) (k : Nat)
    (h : n.blacklist = true) :
    sampleTimes itf io k n = some ⟨n, [], []⟩ := by
  induction k with
  | zero => rfl
  | succ k ih => simp [sampleTimes, DucoNode.sample, h, ih]

/-- Witness for C5: three samples of a blacklisted BOX device. -/
theorem claim_c5_witness :
    sampleTimes (some ⟨true, true⟩) (fun _ => "--> 42") 3
        { ducoNodeInit .box "1" "1" with blacklist := true } =
      some ⟨{ ducoNodeInit .box "1" "1" with blacklist := true }, [], []⟩ :=
  claim_c5 _ _ _ 3 rfl

/-- C9: a BOX device samples with the `fanspeed` command and takes the
`Filtered` field: the reply `Actual 1438 ... Filtered 1449` stores 1449
(scaling 1) in the fanspeed parameter, while the reply `invalid command`
leaves the parameter at `None`. -/
theorem claim_c9 :
    ((DucoNode.sample (some ⟨true, false⟩) (fun _ => "Actual 1438 ... Filtered 1449")
        (ducoNodeInit .box "1" "1")).map
      (fun out => (out.cmds, out.node.get_value "fanspeed")) =
      some (["fanspeed"], some 1449)) ∧
    ((DucoNode.sample (some ⟨true, false⟩) (fun _ => "invalid command")
        (ducoNodeInit .box "1" "1")).map
      (fun out => (out.cmds, out.node.get_value "fanspeed")) =
      some (["fanspeed"], none)) := by
  have hparse : parseReply "Actual 1438 ... Filtered 1449" MATCH_FAN_SPEED "filtered" =
      some "1449" := by decide
  have hmiss : parseReply "invalid command" MATCH_FAN_SPEED "filtered" = none := by decide
  have hdg : digitsToNat "1449".data = 1449 := by decide
  have hfloat : pyFloat "1449" = some (1449 : ℚ) := by
    simp [pyFloat, hdg, show isDigitStr "1449" = true from by decide]
  constructor
  · simp [DucoNode.sample, ducoNodeInit, performSample, performSampleBox, execCmd, hparse,
      DucoNode.set_value, DucoNode.findParam, Kind.initParameters, fanSpeedParameter, hfloat,
      setParamValue, DucoNode.get_value, DucoNodeParameter.set_value, DucoNodeParameter.get_value]
  · simp [DucoNode.sample, ducoNodeInit, performSample, performSampleBox, execCmd, hmiss,
      DucoNode.set_value, DucoNode.findParam, Kind.initParameters, fanSpeedParameter,
      DucoNode.get_value, DucoNodeParameter.get_value]

/-- C10: `DucoNode.set_value` with a `None` value, or with a parameter
name the device does not own, changes nothing and never calls
`store_sample`; with a value and an owned name it stores the scaled value
in that parameter (all other parameters and identity fields unchanged)
and calls `store_sample` exactly once. -/
theorem claim_c10 (n : DucoNode) (parameter : String) :
    (n.set_value parameter none = some (n, [])) ∧
    (∀ v, n.findParam parameter = none → n.set_value parameter (some v) = some (n, [])) ∧
    (∀ v q p, pyFloat v = some q → n.findParam parameter = some p →
      ∃ n', n.set_value parameter (some v) = some (n', [(parameter, q / p.scaling)]) ∧
        n'.get_value parameter = some (q / p.scaling) ∧
        (∀ other, other ≠ parameter → n'.get_value other = n.get_value other) ∧
        n'.number = n.number ∧ n'.address = n.address ∧ n'.name = n.name ∧
        n'.blacklist = n.blacklist) := by
  refine ⟨rfl, ?_, ?_⟩
  · intro v hf
    simp [DucoNode.set_value, hf]
  · intro v q p hq hf
    have hf' : List.find? (fun p => p.name == parameter) n.parameters = some p := hf
    refine ⟨{ n with parameters := setParamValue n.parameters parameter q }, ?_, ?_, ?_,
      rfl, rfl, rfl, rfl⟩
    · simp [DucoNode.set_value, hf, hq, DucoNodeParameter.set_value]
    · simp [DucoNode.get_value, DucoNode.findParam, find_setParamValue_eq, hf',
        DucoNodeParameter.get_value, set_value_snd_value]
    · intro other ho
      simp [DucoNode.get_value, DucoNode.findParam, find_setParamValue_ne _ _ _ _ ho]

/-- Witness for C10 at a fresh UCRH device and its humidity parameter. -/
theorem claim_c10_witness :
    ∃ n', (ucrhWith "34" "132" none none).set_value "humidity" (some "6837") =
        some (n', [("humidity", (6837 : ℚ) / humidityParaGet.scaling)]) ∧
      n'.get_value "humidity" = some ((6837 : ℚ) / humidityParaGet.scaling) ∧
      (∀ other, other ≠ "humidity" →
        n'.get_value other = (ucrhWith "34" "132" none none).get_value other) ∧
      n'.number = (ucrhWith "34" "132" none none).number ∧
      n'.address = (ucrhWith "34" "132" none none).address ∧
      n'.name = (ucrhWith "34" "132" none none).name ∧
      n'.blacklist = (ucrhWith "34" "132" none none).blacklist :=
  (claim_c10 (ucrhWith "34" "132" none none) "humidity").2.2 "6837" 6837 humidityParaGet
    (by simp [pyFloat, show isDigitStr "6837" = true from by decide,
          show digitsToNat "6837".data = 6837 from by decide])
    rfl

/-- C7: `_load` reads a record by node number; a missing record changes
nothing and raises nothing, while a complete record overwrites name,
number, address and blacklist on the device. -/
theorem claim_c7 (cfg : CfgParser) (n : DucoNode) :
    (cfg.hasSection ("Node" ++ n.number) = false → n.nodeLoad cfg = some n) ∧
    (∀ nm nb ad bs b,
      cfg.get ("Node" ++ n.number) "name" = some nm →
      cfg.get ("Node" ++ n.number) "number" = some nb →
      cfg.get ("Node" ++ n.number) "address" = some ad →
      cfg.get ("Node" ++ n.number) "blacklist" = some bs →
      pyBoolParse bs = some b →
      n.nodeLoad cfg =
        some { n with name := nm, number := nb, address := ad, blacklist := b }) := by
  constructor
  · intro h
    have hg : cfg.get ("Node" ++ n.number) "name" = none := by
      unfold CfgParser.get
      cases hf : cfg.sections.find? (fun s => s.1 == ("Node" ++ n.number)) with
      | none => rfl
      | some sec =>
        exfalso
        have hmem := List.mem_of_find?_eq_some hf
        have hpred := List.find?_some hf
        have : cfg.sections.any (fun s => s.1 == ("Node" ++ n.number)) = true :=
          List.any_eq_true.mpr ⟨sec, hmem, hpred⟩
        rw [CfgParser.hasSection] at h
        rw [h] at this
        exact Bool.false_ne_true this
    simp [DucoNode.nodeLoad, hg]
  · intro nm nb ad bs b h1 h2 h3 h4 h5
    simp [DucoNode.nodeLoad, h1, h2, h3, h4, h5]

/-- Witness for C7: loading against an empty store keeps a device
unchanged. -/
theorem claim_c7_witness :
    (ducoNodeInit .uc "1" "2").nodeLoad CfgParser.empty =
      some (ducoNodeInit .uc "1" "2") :=
  (claim_c7 CfgParser.empty (ducoNodeInit .uc "1" "2")).1 rfl

/-! Captured groups of all-digit patterns are nonempty digit strings, so
the `float()` conversion on them always succeeds. -/

theorem runLen_le_length (p : Char → Bool) (s : List Char) : runLen p s ≤ s.length := by
  induction s with
  | nil => simp [runLen]
  | cons c cs ih =>
    simp only [runLen, List.length_cons]
    split <;> omega

theorem take_all_of_le_runLen (p : Char → Bool) :
    ∀ (s : List Char) (k : Nat), k ≤ runLen p s → (s.take k).all p = true := by
  intro s
  induction s with
  | nil =>
    intro k hk
    simp [runLen] at hk
    simp [hk]
  | cons c cs ih =>
    intro k hk
    cases k with
    | zero => simp
    | succ k =>
      by_cases hc : p c = true
      · simp only [runLen, hc, if_true] at hk
        simp [List.all_cons, hc, ih k (by omega)]
      · exfalso
        have hc0 : p c = false := by simpa using hc
        simp [runLen, hc0] at hk

theorem firstSome_some {α : Type} (f : Nat → Option α) :
    ∀ (n : Nat) (a : α), firstSome f n = some a → ∃ k, k ≤ n ∧ f k = some a := by
  intro n
  induction n with
  | zero => intro a h; exact ⟨0, Nat.le_refl 0, h⟩
  | succ n ih =>
    intro a h
    rw [firstSome] at h
    cases hf : f (n + 1) with
    | some b =>
      rw [hf] at h
      simp only [Option.orElse] at h
      exact ⟨n + 1, Nat.le_refl _, by rw [hf]; exact h⟩
    | none =>
      rw [hf] at h
      simp only [Option.orElse] at h
      obtain ⟨k, hk, hfk⟩ := ih a h
      exact ⟨k, Nat.le_succ_of_le hk, hfk⟩

theorem firstSomePos_some {α : Type} (f : Nat → Option α) :
    ∀ (n : Nat) (a : α), firstSomePos f n = some a →
      ∃ k, 1 ≤ k ∧ k ≤ n ∧ f k = some a := by
  intro n
  induction n with
  | zero => intro a h; cases h
  | succ n ih =>
    intro a h
    rw [firstSomePos] at h
    cases hf : f (n + 1) with
    | some b =>
      rw [hf] at h
      simp only [Option.orElse] at h
      exact ⟨n + 1, by omega, Nat.le_refl _, by rw [hf]; exact h⟩
    | none =>
      rw [hf] at h
      simp only [Option.orElse] at h
      obtain ⟨k, hk1, hkn, hfk⟩ := ih a h
      exact ⟨k, hk1, Nat.le_succ_of_le hkn, hfk⟩

theorem matchSeq_digit_caps :
    ∀ (toks : List Tok) (s : List Char) (caps : Caps),
      allDigitGrps toks = true → matchSeq toks s = some caps →
      ∀ g v, (g, v) ∈ caps → isDigitStr v = true := by
  intro toks
  induction toks with
  | nil =>
    intro s caps _ h g v hm
    simp only [matchSeq] at h
    cases h
    simp at hm
  | cons t rest ih =>
    intro s caps hall h g v hm
    have hallrest : allDigitGrps rest = true := by
      simp only [allDigitGrps, List.all_cons, Bool.and_eq_true] at hall
      exact hall.2
    cases t with
    | lit l =>
      simp only [matchSeq] at h
      split at h
      · exact ih _ _ hallrest h g v hm
      · cases h
    | wsStar =>
      simp only [matchSeq] at h
      obtain ⟨k, _, hk⟩ := firstSome_some _ _ _ h
      exact ih _ _ hallrest hk g v hm
    | anyStar =>
      simp only [matchSeq] at h
      obtain ⟨k, _, hk⟩ := firstSome_some _ _ _ h
      exact ih _ _ hallrest hk g v hm
    | grp g0 cls =>
      have hcls : cls = GrpClass.digit := by
        simp only [allDigitGrps, List.all_cons, Bool.and_eq_true] at hall
        have := hall.1
        cases cls <;> simp_all
      subst hcls
      simp only [matchSeq] at h
      obtain ⟨k, hk1, hkn, hk⟩ := firstSomePos_some _ _ _ h
      cases hrest : matchSeq rest (List.drop k s) with
      | none => rw [hrest] at hk; cases hk
      | some caps0 =>
        rw [hrest] at hk
        simp only [Option.map] at hk
        cases hk
        rcases List.mem_cons.mp hm with hm0 | hm0
        · cases hm0
          have hne : ¬(List.take k s = []) := by
            intro hemp
            have : s ≠ [] := by
              intro hs
              subst hs
              simp [runLen] at hkn
              omega
            rcases List.eq_nil_or_concat s with hs | _
            · exact this hs
            · have : k = 0 ∨ s = [] := List.take_eq_nil_iff.mp hemp
              rcases this with h0 | h0
              · omega
              · exact (by intro hs; subst hs; simp [runLen] at hkn; omega : s ≠ []) h0
          have hall2 : (List.take k s).all isDigitChar = true :=
            take_all_of_le_runLen _ s k (by
              have : GrpClass.fn GrpClass.digit = isDigitChar := rfl
              rw [← this]
              exact hkn)
          have hemp : (List.take k s).isEmpty = false := by
            cases htk : List.take k s with
            | nil => exact absurd htk hne
            | cons a b => rfl
          simp only [isDigitStr, Bool.and_eq_true]
          exact ⟨by rw [hemp]; rfl, hall2⟩
        · exact ih _ _ hallrest hrest g v hm0
    | eol =>
      simp only [matchSeq] at h
      split at h
      · exact ih _ _ hallrest h g v hm
      · cases h

theorem searchCaps_digit_caps (toks : List Tok) :
    ∀ (s : List Char) (caps : Caps), allDigitGrps toks = true →
      searchCaps toks s = some caps →
      ∀ g v, (g, v) ∈ caps → isDigitStr v = true := by
  intro s
  induction s with
  | nil =>
    intro caps hall h
    exact matchSeq_digit_caps _ _ _ hall h
  | cons c t ih =>
    intro caps hall h
    rw [searchCaps] at h
    cases hm : matchSeq toks (c :: t) with
    | some caps0 =>
      rw [hm] at h
      cases h
      exact matchSeq_digit_caps _ _ _ hall hm
    | none =>
      rw [hm] at h
      exact ih caps hall h

theorem parseReply_digits (reply : String) (toks : List Tok) (group v : String)
    (hall : allDigitGrps toks = true) (h : parseReply reply toks group = some v) :
    isDigitStr v = true := by
  unfold parseReply at h
  cases hs : searchCaps toks reply.data with
  | none => rw [hs] at h; cases h
  | some caps =>
    rw [hs] at h
    simp only [Option.bind] at h
    unfold capLookup at h
    cases hf : caps.find? (fun p => p.1 == group) with
    | none => rw [hf] at h; cases h
    | some pr =>
      rw [hf] at h
      simp only [Option.map] at h
      cases h
      have hmem := List.mem_of_find?_eq_some hf
      exact searchCaps_digit_caps toks reply.data caps hall hs pr.1 pr.2
        (by simpa using hmem)

/-- Any value captured by an all-digit pattern converts with `float()`. -/
theorem pyFloat_parseReply (reply : String) (toks : List Tok) (group v : String)
    (hall : allDigitGrps toks = true) (h : parseReply reply toks group = some v) :
    pyFloat v = some ((digitsToNat v.data : ℚ)) := by
  have hd := parseReply_digits reply toks group v hall h
  simp [pyFloat, hd]

theorem set_value_snd_getterId (p : DucoNodeParameter) (raw : ℚ) :
    (p.set_value raw).2.getterId = p.getterId := rfl

theorem set_value_snd_scaling (p : DucoNodeParameter) (raw : ℚ) :
    (p.set_value raw).2.scaling = p.scaling := rfl

/-- A successful `set_value` touches only the named parameter value: the
node identity fields, the other parameters, and the named parameter
metadata are all preserved. -/
theorem set_value_preserves (n : DucoNode) (nm : String) (val : Option String)
    (n1 : DucoNode) (evs : List (String × ℚ))
    (h : n.set_value nm val = some (n1, evs)) :
    n1.number = n.number ∧ n1.blacklist = n.blacklist ∧
    (∀ other, other ≠ nm → n1.findParam other = n.findParam other) ∧
    (∀ p, n.findParam nm = some p → ∃ p1, n1.findParam nm = some p1 ∧
      p1.getterId = p.getterId ∧ p1.scaling = p.scaling ∧ p1.name = p.name) := by
  cases val with
  | none =>
    rw [DucoNode.set_value] at h
    cases h
    exact ⟨rfl, rfl, fun _ _ => rfl, fun p hp => ⟨p, hp, rfl, rfl, rfl⟩⟩
  | some v =>
    rw [DucoNode.set_value] at h
    cases hf : n.findParam nm with
    | none =>
      rw [hf] at h
      cases h
      exact ⟨rfl, rfl, fun _ _ => rfl, fun p hp => nomatch hp⟩
    | some p =>
      rw [hf] at h
      cases hq : pyFloat v with
      | none => rw [hq] at h; cases h
      | some q =>
        rw [hq] at h
        cases h
        refine ⟨rfl, rfl, ?_, ?_⟩
        · intro other ho
          show (setParamValue n.parameters nm q).find? (fun x => x.name == other) = _
          rw [find_setParamValue_ne _ _ _ _ ho]
          rfl
        · intro p0 hp0
          obtain rfl := Option.some.inj hp0
          refine ⟨(p.set_value q).2, ?_, rfl, rfl, rfl⟩
          show (setParamValue n.parameters nm q).find? (fun x => x.name == nm) = _
          rw [find_setParamValue_eq]
          have hf' : List.find? (fun x => x.name == nm) n.parameters = some p := hf
          rw [hf']
          rfl

/-- One step of the default paraget sampling loop: the step never raises
(the value-extraction pattern only captures digit strings), issues exactly
the `nodeparaget` command of the parameter, and continues with the stored
node. -/
theorem sampleLoop_cons_paraget (itf : NodeItf) (io : String → String) (nm : String)
    (rest : List String) (n : DucoNode) (p : DucoNodeParameter) (gid : Nat)
    (hfp : n.findParam nm = some p) (hgid : p.getterId = some gid) :
    ∃ n1 evs1,
      n.set_value nm
          (parseReply (execCmd itf io (paragetCommand n.number gid)) PARAGET_REGEX "value") =
        some (n1, evs1) ∧
      sampleLoop itf io (nm :: rest) n =
        (sampleLoop itf io rest n1).map
          (fun out => ⟨out.node, paragetCommand n.number gid :: out.cmds,
            evs1 ++ out.sinks⟩) := by
  cases hv : parseReply (execCmd itf io (paragetCommand n.number gid)) PARAGET_REGEX "value" with
  | none =>
    refine ⟨n, [], rfl, ?_⟩
    simp only [sampleLoop, hfp, hgid, hv]
    rfl
  | some v =>
    have hq : pyFloat v = some ((digitsToNat v.data : ℚ)) :=
      pyFloat_parseReply _ PARAGET_REGEX _ v (by decide) hv
    refine ⟨{ n with parameters := setParamValue n.parameters nm (digitsToNat v.data : ℚ) },
      [(nm, (p.set_value (digitsToNat v.data : ℚ)).1)], ?_, ?_⟩
    · rw [DucoNode.set_value, hfp, hq]
    · simp only [sampleLoop, hfp, hgid, hv]
      rw [DucoNode.set_value, hfp, hq]

/-- The `sensorinfo` command is never a `nodeparaget` command. -/
theorem sensorinfo_ne_paraget (m : String) (k : Nat) : "sensorinfo" ≠ paragetCommand m k := by
  intro h
  have h2 := congrArg String.data h
  rw [paragetCommand, String.data_append, String.data_append, String.data_append] at h2
  have hL : "sensorinfo".data = 's' :: "ensorinfo".data := rfl
  have hR : "nodeparaget ".data = 'n' :: "odeparaget ".data := rfl
  rw [hL, hR] at h2
  simp [List.cons_append] at h2

/-- C3: a humidity-capable UserControl device samples with one
`nodeparaget <number> 73` and one `nodeparaget <number> 75` command (one
per owned parameter) and no `sensorinfo` when the session is extended;
otherwise it samples with a single `sensorinfo` command, extracting
humidity and temperature from that one reply with the two independent
sensor-info patterns. -/
theorem claim_c3 (num addr : String) (v1 v2 : Option ℚ) (so : Bool) (io : String → String) :
    (∃ out, DucoNode.sample (some ⟨so, true⟩) io (ucrhWith num addr v1 v2) = some out ∧
      out.cmds = [paragetCommand num 73, paragetCommand num 75] ∧
      "sensorinfo" ∉ out.cmds) ∧
    (∃ out, DucoNode.sample (some ⟨so, false⟩) io (ucrhWith num addr v1 v2) = some out ∧
      out.cmds = ["sensorinfo"] ∧
      out.node.get_value "humidity" =
        (match parseReply (execCmd ⟨so, false⟩ io "sensorinfo")
            MATCH_SENSOR_INFO_HUMIDITY "humidity" with
         | some v => some ((digitsToNat v.data : ℚ) / 100)
         | none => v2) ∧
      out.node.get_value "temperature" =
        (match parseReply (execCmd ⟨so, false⟩ io "sensorinfo")
            MATCH_SENSOR_INFO_TEMPERATURE "temperature" with
         | some v => some ((digitsToNat v.data : ℚ) / 10)
         | none => v1)) := by
  constructor
  · -- extended: the default per-parameter paraget procedure
    have e1 : DucoNode.sample (some ⟨so, true⟩) io (ucrhWith num addr v1 v2) =
        sampleLoop ⟨so, true⟩ io ["temperature", "humidity"] (ucrhWith num addr v1 v2) := rfl
    obtain ⟨n1, evs1, hsv1, hL1⟩ :=
      sampleLoop_cons_paraget ⟨so, true⟩ io "temperature" ["humidity"]
        (ucrhWith num addr v1 v2) { temperatureParaGet with value := v1 } 73 rfl rfl
    have pres := set_value_preserves _ _ _ _ _ hsv1
    have hnum1 : n1.number = num := pres.1
    have hfp2 : n1.findParam "humidity" = some { humidityParaGet with value := v2 } := by
      rw [pres.2.2.1 "humidity" (by decide)]
      rfl
    obtain ⟨n2, evs2, hsv2, hL2⟩ :=
      sampleLoop_cons_paraget ⟨so, true⟩ io "humidity" [] n1
        { humidityParaGet with value := v2 } 75 hfp2 rfl
    refine ⟨⟨n2, [paragetCommand num 73, paragetCommand num 75], evs1 ++ (evs2 ++ [])⟩,
      ?_, rfl, ?_⟩
    · rw [e1, hL1, hL2, hnum1]
      rfl
    · intro hmem
      simp only [SampleOut.cmds] at hmem
      rcases List.mem_cons.mp hmem with h | h
      · exact sensorinfo_ne_paraget _ _ h
      · rcases List.mem_cons.mp h with h | h
        · exact sensorinfo_ne_paraget _ _ h
        · simp at h
  · -- not extended: one sensorinfo command, two patterns on its reply
    have e2 : DucoNode.sample (some ⟨so, false⟩) io (ucrhWith num addr v1 v2) =
        ((ucrhWith num addr v1 v2).set_value "humidity"
            (parseReply (execCmd ⟨so, false⟩ io "sensorinfo")
              MATCH_SENSOR_INFO_HUMIDITY "humidity")).bind (fun r1 =>
          ((r1.1.set_value "temperature"
              (parseReply (execCmd ⟨so, false⟩ io "sensorinfo")
                MATCH_SENSOR_INFO_TEMPERATURE "temperature")).map (fun r2 =>
            ⟨r2.1, ["sensorinfo"], r1.2 ++ r2.2⟩))) := rfl
    have hfpH : (ucrhWith num addr v1 v2).findParam "humidity" =
        some { humidityParaGet with value := v2 } := rfl
    have hfpT : (ucrhWith num addr v1 v2).findParam "temperature" =
        some { temperatureParaGet with value := v1 } := rfl
    cases hh : parseReply (execCmd ⟨so, false⟩ io "sensorinfo")
        MATCH_SENSOR_INFO_HUMIDITY "humidity" with
    | none =>
      have hsv1 : (ucrhWith num addr v1 v2).set_value "humidity" none =
          some (ucrhWith num addr v1 v2, []) := rfl
      cases ht : parseReply (execCmd ⟨so, false⟩ io "sensorinfo")
          MATCH_SENSOR_INFO_TEMPERATURE "temperature" with
      | none =>
        refine ⟨⟨ucrhWith num addr v1 v2, ["sensorinfo"], []⟩, ?_, rfl, rfl, rfl⟩
        rw [e2, hh, ht]
        rfl
      | some tv =>
        have hqt : pyFloat tv = some ((digitsToNat tv.data : ℚ)) :=
          pyFloat_parseReply _ MATCH_SENSOR_INFO_TEMPERATURE _ tv (by decide) ht
        have hsv2 : (ucrhWith num addr v1 v2).set_value "temperature" (some tv) =
            some ({ ucrhWith num addr v1 v2 with
                parameters := setParamValue (ucrhWith num addr v1 v2).parameters
                  "temperature" (digitsToNat tv.data : ℚ) },
              [("temperature", (digitsToNat tv.data : ℚ) / 10)]) := by
          rw [DucoNode.set_value, hfpT, hqt]
          rfl
        refine ⟨⟨{ ucrhWith num addr v1 v2 with
            parameters := setParamValue (ucrhWith num addr v1 v2).parameters
              "temperature" (digitsToNat tv.data : ℚ) }, ["sensorinfo"],
            [] ++ [("temperature", (digitsToNat tv.data : ℚ) / 10)]⟩, ?_, rfl, ?_, ?_⟩
        · rw [e2, hh, ht]
          rw [hsv1]
          simp only [Option.bind, hsv2, Option.map]
        · show ({ ucrhWith num addr v1 v2 with
              parameters := setParamValue (ucrhWith num addr v1 v2).parameters
                "temperature" (digitsToNat tv.data : ℚ) } :
            DucoNode).get_value "humidity" = v2
          rw [DucoNode.get_value]
          rw [show ({ ucrhWith num addr v1 v2 with
              parameters := setParamValue (ucrhWith num addr v1 v2).parameters
                "temperature" (digitsToNat tv.data : ℚ) } :
            DucoNode).findParam "humidity" =
              (setParamValue (ucrhWith num addr v1 v2).parameters "temperature"
                (digitsToNat tv.data : ℚ)).find? (fun p => p.name == "humidity") from rfl]
          rw [find_setParamValue_ne _ _ _ _ (by decide)]
          rfl
        · show ({ ucrhWith num addr v1 v2 with
              parameters := setParamValue (ucrhWith num addr v1 v2).parameters
                "temperature" (digitsToNat tv.data : ℚ) } :
            DucoNode).get_value "temperature" = some ((digitsToNat tv.data : ℚ) / 10)
          rw [DucoNode.get_value]
          rw [show ({ ucrhWith num addr v1 v2 with
              parameters := setParamValue (ucrhWith num addr v1 v2).parameters
                "temperature" (digitsToNat tv.data : ℚ) } :
            DucoNode).findParam "temperature" =
              (setParamValue (ucrhWith num addr v1 v2).parameters "temperature"
                (digitsToNat tv.data : ℚ)).find? (fun p => p.name == "temperature") from rfl]
          rw [find_setParamValue_eq, show List.find? (fun p => p.name == "temperature")
            (ucrhWith num addr v1 v2).parameters =
              some { temperatureParaGet with value := v1 } from rfl]
          rfl
    | some hv =>
      have hqh : pyFloat hv = some ((digitsToNat hv.data : ℚ)) :=
        pyFloat_parseReply _ MATCH_SENSOR_INFO_HUMIDITY _ hv (by decide) hh
      have hsv1 : (ucrhWith num addr v1 v2).set_value "humidity" (some hv) =
          some ({ ucrhWith num addr v1 v2 with
              parameters := setParamValue (ucrhWith num addr v1 v2).parameters
                "humidity" (digitsToNat hv.data : ℚ) },
            [("humidity", (digitsToNat hv.data : ℚ) / 100)]) := by
        rw [DucoNode.set_value, hfpH, hqh]
        rfl
      obtain ⟨hnum1, hbl1, hother1, hself1⟩ := set_value_preserves _ _ _ _ _ hsv1
      have hfpT1 : ({ ucrhWith num addr v1 v2 with
          parameters := setParamValue (ucrhWith num addr v1 v2).parameters
            "humidity" (digitsToNat hv.data : ℚ) } : DucoNode).findParam "temperature" =
          some { temperatureParaGet with value := v1 } := by
        rw [hother1 "temperature" (by decide)]
        rfl
      cases ht : parseReply (execCmd ⟨so, false⟩ io "sensorinfo")
          MATCH_SENSOR_INFO_TEMPERATURE "temperature" with
      | none =>
        refine ⟨⟨{ ucrhWith num addr v1 v2 with
            parameters := setParamValue (ucrhWith num addr v1 v2).parameters
              "humidity" (digitsToNat hv.data : ℚ) }, ["sensorinfo"],
            [("humidity", (digitsToNat hv.data : ℚ) / 100)] ++ []⟩, ?_, rfl, ?_, ?_⟩
        · rw [e2, hh, ht]
          simp only [Option.bind, hsv1, Option.map]
          rfl
        · rw [DucoNode.get_value]
          rw [show ({ ucrhWith num addr v1 v2 with
              parameters := setParamValue (ucrhWith num addr v1 v2).parameters
                "humidity" (digitsToNat hv.data : ℚ) } :
            DucoNode).findParam "humidity" =
              (setParamValue (ucrhWith num addr v1 v2).parameters "humidity"
                (digitsToNat hv.data : ℚ)).find? (fun p => p.name == "humidity") from rfl]
          rw [find_setParamValue_eq, show List.find? (fun p => p.name == "humidity")
            (ucrhWith num addr v1 v2).parameters =
              some { humidityParaGet with value := v2 } from rfl]
          rfl
        · rw [DucoNode.get_value, hfpT1]
          rfl
      | some tv =>
        have hqt : pyFloat tv = some ((digitsToNat tv.data : ℚ)) :=
          pyFloat_parseReply _ MATCH_SENSOR_INFO_TEMPERATURE _ tv (by decide) ht
        have hsv2 : ({ ucrhWith num addr v1 v2 with
            parameters := setParamValue (ucrhWith num addr v1 v2).parameters
              "humidity" (digitsToNat hv.data : ℚ) } : DucoNode).set_value
              "temperature" (some tv) =
            some ({ ucrhWith num addr v1 v2 with
                parameters := setParamValue
                  (setParamValue (ucrhWith num addr v1 v2).parameters
                    "humidity" (digitsToNat hv.data : ℚ))
                  "temperature" (digitsToNat tv.data : ℚ) },
              [("temperature", (digitsToNat tv.data : ℚ) / 10)]) := by
          rw [DucoNode.set_value, hfpT1, hqt]
          rfl
        refine ⟨⟨{ ucrhWith num addr v1 v2 with
            parameters := setParamValue
              (setParamValue (ucrhWith num addr v1 v2).parameters
                "humidity" (digitsToNat hv.data : ℚ))
              "temperature" (digitsToNat tv.data : ℚ) }, ["sensorinfo"],
            [("humidity", (digitsToNat hv.data : ℚ) / 100)] ++
              [("temperature", (digitsToNat tv.data : ℚ) / 10)]⟩, ?_, rfl, ?_, ?_⟩
        · rw [e2, hh, ht]
          simp only [Option.bind, hsv1, hsv2, Option.map]
        · rw [DucoNode.get_value]
          rw [show ({ ucrhWith num addr v1 v2 with
              parameters := setParamValue
                (setParamValue (ucrhWith num addr v1 v2).parameters
                  "humidity" (digitsToNat hv.data : ℚ))
                "temperature" (digitsToNat tv.data : ℚ) } :
            DucoNode).findParam "humidity" =
              (setParamValue
                (setParamValue (ucrhWith num addr v1 v2).parameters
                  "humidity" (digitsToNat hv.data : ℚ))
                "temperature" (digitsToNat tv.data : ℚ)).find?
                  (fun p => p.name == "humidity") from rfl]
          rw [find_setParamValue_ne _ _ _ _ (by decide)]
          rw [find_setParamValue_eq, show List.find? (fun p => p.name == "humidity")
            (ucrhWith num addr v1 v2).parameters =
              some { humidityParaGet with value := v2 } from rfl]
          rfl
        · rw [DucoNode.get_value]
          rw [show ({ ucrhWith num addr v1 v2 with
              parameters := setParamValue
                (setParamValue (ucrhWith num addr v1 v2).parameters
                  "humidity" (digitsToNat hv.data : ℚ))
                "temperature" (digitsToNat tv.data : ℚ) } :
            DucoNode).findParam "temperature" =
              (setParamValue
                (setParamValue (ucrhWith num addr v1 v2).parameters
                  "humidity" (digitsToNat hv.data : ℚ))
                "temperature" (digitsToNat tv.data : ℚ)).find?
                  (fun p => p.name == "temperature") from rfl]
          rw [find_setParamValue_eq]
          rw [show (setParamValue (ucrhWith num addr v1 v2).parameters
              "humidity" (digitsToNat hv.data : ℚ)).find?
                (fun p => p.name == "temperature") =
              some { temperatureParaGet with value := v1 } from
            (find_setParamValue_ne _ _ _ _ (by decide)).trans rfl]
          rfl

/-- Witness for C3: a concrete extended-mode sample of a UCRH device. -/
theorem claim_c3_witness :
    ∃ out, DucoNode.sample (some ⟨true, true⟩) (fun _ => "--> 5")
        (ucrhWith "34" "132" none none) = some out ∧
      out.cmds = [paragetCommand "34" 73, paragetCommand "34" 75] ∧
      "sensorinfo" ∉ out.cmds :=
  (claim_c3 "34" "132" none none true (fun _ => "--> 5")).1

/-- `add_node` never touches the serial handle or the online flag, and
changes `extended` exactly when it constructs a BOX whose board info
carries a non-BASIC board name. -/
theorem addNode_state (io : String → String) (s : DucoItf) (kd no ad : String) :
    (addNode io s kd no ad).1.serialOpen = s.serialOpen ∧
    (addNode io s kd no ad).1.live = s.live ∧
    (addNode io s kd no ad).1.extended =
      (s.extended || (kindForTag kd == Kind.box &&
        (storeBoardInfo (execCmd s.view io "boardinfo")).makesExtended)) := by
  cases hk : kindForTag kd <;>
    simp [addNode, hk] <;>
    cases (storeBoardInfo (execCmd s.view io "boardinfo")).makesExtended <;>
    simp

/-- The discovery fold over the network-reply lines: the extended flag
rises exactly when some matching line carries the BOX kind tag and the
board info marks the session extended. -/
theorem foldNetwork_extended (io : String → String) (lines : List String) :
    ∀ acc : DucoItf, acc.serialOpen = true →
      (lines.foldl (fun acc line =>
          match matchNetworkLine line with
          | some (no, ad, kd) => { (addNode io acc kd no ad).1 with live := true }
          | none => acc) acc).extended =
        (acc.extended ||
          (lines.any (fun line =>
            match matchNetworkLine line with
            | some (_, _, kd) => kindForTag kd == Kind.box
            | none => false) &&
          (storeBoardInfo (io "boardinfo")).makesExtended)) := by
  induction lines with
  | nil => intro acc hso; simp
  | cons line rest ih =>
    intro acc hso
    cases hm : matchNetworkLine line with
    | none =>
      simp only [List.foldl_cons, List.any_cons, hm]
      rw [ih acc hso]
      simp
    | some triple =>
      obtain ⟨no, ad, kd⟩ := triple
      simp only [List.foldl_cons, List.any_cons, hm]
      have hstate := addNode_state io acc kd no ad
      have hso1 : ({ (addNode io acc kd no ad).1 with live := true } : DucoItf).serialOpen
          = true := by
        show (addNode io acc kd no ad).1.serialOpen = true
        rw [hstate.1, hso]
      rw [ih _ hso1]
      have hext : ({ (addNode io acc kd no ad).1 with live := true } : DucoItf).extended
          = (acc.extended || (kindForTag kd == Kind.box &&
            (storeBoardInfo (execCmd acc.view io "boardinfo")).makesExtended)) := by
        show (addNode io acc kd no ad).1.extended = _
        exact hstate.2.2
      rw [hext]
      have hexec : execCmd acc.view io "boardinfo" = io "boardinfo" := by
        simp [execCmd, DucoItf.view, hso]
      rw [hexec]
      cases acc.extended <;> cases hkb : (kindForTag kd == Kind.box) <;>
        cases (storeBoardInfo (io "boardinfo")).makesExtended <;> simp [hkb]

/-- `find_nodes` changes `extended` exactly per its trigger. -/
theorem findNodes_extended (io : String → String) (s : DucoItf) :
    (findNodes io s).extended =
      (s.extended || opExtendTrigger (.opFindNodes io) s) := by
  cases hso : s.serialOpen with
  | false =>
    rw [findNodes, opExtendTrigger]
    simp [hso]
  | true =>
    rw [findNodes, opExtendTrigger]
    simp only [hso, if_true]
    rw [foldNetwork_extended io _ s hso]
    have hexec : execCmd s.view io "network" = io "network" := by
      simp [execCmd, DucoItf.view, hso]
    have hexec2 : execCmd s.view io "boardinfo" = io "boardinfo" := by
      simp [execCmd, DucoItf.view, hso]
    rw [hexec, hexec2]
    cases s.extended <;> simp

/-- C4: the extended flag starts false at session construction, and a
step raises it exactly when it constructs a BOX device whose parsed
board name is present and free of the substring BASIC; every other
operation leaves it unchanged. -/
theorem claim_c4 :
    (∀ so cf, (itfInit so cf).extended = false) ∧
    (∀ op s s', applyItfOp op s = some s' →
      s'.extended = (s.extended || opExtendTrigger op s)) := by
  constructor
  · intro so cf; rfl
  · intro op s s' h
    cases op with
    | opFindNodes io =>
      rw [applyItfOp] at h
      cases h
      exact findNodes_extended io s
    | opAddNode io kd no ad =>
      rw [applyItfOp] at h
      cases h
      exact (addNode_state io s kd no ad).2.2
    | opSample io =>
      rw [applyItfOp, itfSample] at h
      split at h
      · cases hm : s.nodes.mapM (fun n => (DucoNode.sample (some s.view) io n).map
            SampleOut.node) with
        | none => rw [hm] at h; cases h
        | some ns =>
          rw [hm] at h
          simp only [Option.map] at h
          cases h
          simp [opExtendTrigger]
      · cases h
        simp [opExtendTrigger]
    | opLoad cfg =>
      rw [applyItfOp] at h
      cases hm : interfaceLoad cfg s.nodes with
      | none => rw [hm] at h; cases h
      | some ns =>
        rw [hm] at h
        simp only [Option.map] at h
        cases h
        simp [opExtendTrigger]
    | opStore =>
      rw [applyItfOp] at h
      cases h
      simp [opExtendTrigger]

/-- Witness for C4: adding a BOX with a non-BASIC board reply flips the
flag according to the trigger. -/
theorem claim_c4_witness :
    ((addNode (fun _ => "Board : Focus") (itfInit true none) "BOX" "1" "1").1).extended =
      ((itfInit true none).extended ||
        opExtendTrigger (.opAddNode (fun _ => "Board : Focus") "BOX" "1" "1")
          (itfInit true none)) :=
  claim_c4.2 (.opAddNode (fun _ => "Board : Focus") "BOX" "1" "1") (itfInit true none) _ rfl

/-- `add_node` appends exactly one node carrying the given address. -/
theorem addNode_addresses (io : String → String) (s : DucoItf) (kd no ad : String) :
    (addNode io s kd no ad).1.nodes.map (fun n => n.address) =
      s.nodes.map (fun n => n.address) ++ [ad] := by
  cases hk : kindForTag kd <;> simp [addNode, hk, ducoNodeInit]

theorem foldNetwork_addresses (io : String → String) (lines : List String) :
    ∀ acc : DucoItf,
      ((lines.foldl (fun acc line =>
          match matchNetworkLine line with
          | some (no, ad, kd) => { (addNode io acc kd no ad).1 with live := true }
          | none => acc) acc).nodes.map (fun n => n.address)) =
        acc.nodes.map (fun n => n.address) ++
          lines.filterMap (fun line => (matchNetworkLine line).map (fun r => r.2.1)) := by
  induction lines with
  | nil => intro acc; simp
  | cons line rest ih =>
    intro acc
    cases hm : matchNetworkLine line with
    | none =>
      simp only [List.foldl_cons, List.filterMap_cons, hm]
      rw [ih acc]
      rfl
    | some triple =>
      obtain ⟨no, ad, kd⟩ := triple
      simp only [List.foldl_cons, List.filterMap_cons, hm]
      rw [ih _]
      have haddr : (({ (addNode io acc kd no ad).1 with live := true } : DucoItf).nodes.map
          (fun n => n.address)) = acc.nodes.map (fun n => n.address) ++ [ad] := by
        show ((addNode io acc kd no ad).1.nodes.map (fun n => n.address)) = _
        exact addNode_addresses io acc kd no ad
      rw [haddr]
      simp

theorem findNodes_addresses (io : String → String) (s : DucoItf) :
    (findNodes io s).nodes.map (fun n => n.address) =
      s.nodes.map (fun n => n.address) ++ opAddedAddresses (.opFindNodes io) s := by
  cases hso : s.serialOpen with
  | false =>
    rw [findNodes, opAddedAddresses]
    simp [hso]
  | true =>
    rw [findNodes, opAddedAddresses]
    simp only [hso, if_true]
    exact foldNetwork_addresses io _ s

/-- One discovery-family step appends exactly its added addresses. -/
theorem discovery_addresses (op : ItfOp) (s s' : DucoItf) (hop : op.isDiscovery)
    (h : applyItfOp op s = some s') :
    s'.nodes.map (fun n => n.address) =
      s.nodes.map (fun n => n.address) ++ opAddedAddresses op s := by
  cases op with
  | opFindNodes io =>
    rw [applyItfOp] at h
    cases h
    exact findNodes_addresses io s
  | opAddNode io kd no ad =>
    rw [applyItfOp] at h
    cases h
    exact addNode_addresses io s kd no ad
  | opSample io => exact absurd hop (by simp [ItfOp.isDiscovery])
  | opLoad cfg => exact absurd hop (by simp [ItfOp.isDiscovery])
  | opStore => exact absurd hop (by simp [ItfOp.isDiscovery])

theorem run_addresses (ops : List ItfOp) :
    ∀ s s' : DucoItf, (∀ op ∈ ops, op.isDiscovery) → applySeq ops s = some s' →
      s'.nodes.map (fun n => n.address) =
        s.nodes.map (fun n => n.address) ++ runAddedAddresses ops s := by
  induction ops with
  | nil =>
    intro s s' _ h
    rw [applySeq] at h
    cases h
    simp [runAddedAddresses]
  | cons op rest ih =>
    intro s s' hdisc h
    rw [applySeq] at h
    cases happ : applyItfOp op s with
    | none => rw [happ] at h; cases h
    | some s1 =>
      rw [happ] at h
      simp only [Option.bind] at h
      have hstep := discovery_addresses op s s1 (hdisc op (List.mem_cons_self op rest)) happ
      have hrest := ih s1 s' (fun o ho => hdisc o (List.mem_cons_of_mem _ ho)) h
      rw [runAddedAddresses, happ, hrest, hstep, List.append_assoc]

/-- C2 fails as stated: `add_node` appends unconditionally, so two
discovery-family operations carrying the same address leave two devices
with address 7 in `nodes`. -/
theorem claim_c2_counterexample :
    ∃ s', applySeq [ItfOp.opAddNode (fun _ => "") "UC" "1" "7",
        ItfOp.opAddNode (fun _ => "") "UC" "2" "7"] (itfInit false none) = some s' ∧
      (∀ op ∈ [ItfOp.opAddNode (fun _ => "") "UC" "1" "7",
        ItfOp.opAddNode (fun _ => "") "UC" "2" "7"], ItfOp.isDiscovery op) ∧
      ¬ (s'.nodes.map (fun n => n.address)).Nodup := by
  refine ⟨_, rfl, ?_, ?_⟩
  · intro op hop
    rcases List.mem_cons.mp hop with h | h
    · subst h; exact trivial
    · rcases List.mem_cons.mp h with h | h
      · subst h; exact trivial
      · simp at h
  · decide

/-- C2 amended: after any sequence of discovery and `add_node`
operations from a fresh session, the node addresses are exactly the
addresses added along the run, in order; hence `nodes` holds at most one
device per address provided the added addresses are pairwise distinct. -/
theorem claim_c2 (ops : List ItfOp) (so : Bool) (cf : Option String) (s' : DucoItf)
    (hdisc : ∀ op ∈ ops, op.isDiscovery)
    (happ : applySeq ops (itfInit so cf) = some s')
    (hnodup : (runAddedAddresses ops (itfInit so cf)).Nodup) :
    (s'.nodes.map (fun n => n.address)).Nodup := by
  have := run_addresses ops (itfInit so cf) s' hdisc happ
  rw [this]
  simpa using hnodup

/-- Witness for the amended C2: two adds with distinct addresses. -/
theorem claim_c2_witness :
    (({ nodes := [ducoNodeInit .uc "1" "7", ducoNodeInit .uc "2" "8"], live := false,
        extended := false, serialOpen := false, cfgfile := none } : DucoItf).nodes.map
      (fun n => n.address)).Nodup :=
  claim_c2
    [ItfOp.opAddNode (fun _ => "") "UC" "1" "7", ItfOp.opAddNode (fun _ => "") "UC" "2" "8"]
    false none _
    (by intro op hop
        rcases List.mem_cons.mp hop with h | h
        · subst h; exact trivial
        · rcases List.mem_cons.mp h with h | h
          · subst h; exact trivial
          · simp at h)
    rfl
    (by decide)

/-- `add_node` instantiates the class the kind-selection loop picks, and
warns exactly when the selection fell through to the base class. -/
theorem addNode_kind (io : String → String) (s : DucoItf) (tag no ad : String) :
    (addNode io s tag no ad).2.1.kind = kindForTag tag ∧
    (addNode io s tag no ad).2.2 = (kindForTag tag == Kind.generic) := by
  cases hk : kindForTag tag <;> simp [addNode, hk, ducoNodeInit]

/-- C8: a kind tag matching no declared KIND makes `add_node` fall back
to a generic device with no parameters, append it, warn and return it;
a declared KIND yields the corresponding concrete variant (and no
warning). -/
theorem claim_c8 (io : String → String) (s : DucoItf) (tag number address : String) :
    ((∀ p ∈ nodeSubclasses, p.2 ≠ some tag) →
      ∃ node, addNode io s tag number address =
          ({ s with nodes := s.nodes ++ [node] }, node, true) ∧
        node.kind = .generic ∧ node.parameters = [] ∧
        node.number = number ∧ node.address = address) ∧
    (∀ k, (k, some tag) ∈ nodeSubclasses →
      (addNode io s tag number address).2.1.kind = k ∧
      (addNode io s tag number address).2.2 = false) := by
  constructor
  · intro hyp
    have hBOX : ¬("BOX" = tag) :=
      fun he => hyp (.box, some "BOX") (by simp [nodeSubclasses]) (by rw [he])
    have hUCRH : ¬("UCRH" = tag) :=
      fun he => hyp (.ucrh, some "UCRH") (by simp [nodeSubclasses]) (by rw [he])
    have hUCCO2 : ¬("UCCO2" = tag) :=
      fun he => hyp (.ucco2, some "UCCO2") (by simp [nodeSubclasses]) (by rw [he])
    have hVLVRH : ¬("VLVRH" = tag) :=
      fun he => hyp (.vlvrh, some "VLVRH") (by simp [nodeSubclasses]) (by rw [he])
    have hVLVCO2 : ¬("VLVCO2" = tag) :=
      fun he => hyp (.vlvco2, some "VLVCO2") (by simp [nodeSubclasses]) (by rw [he])
    have hCLIMA : ¬("CLIMA" = tag) :=
      fun he => hyp (.clima, some "CLIMA") (by simp [nodeSubclasses]) (by rw [he])
    have hUCBAT : ¬("UCBAT" = tag) :=
      fun he => hyp (.ucbat, some "UCBAT") (by simp [nodeSubclasses]) (by rw [he])
    have hUC : ¬("UC" = tag) :=
      fun he => hyp (.uc, some "UC") (by simp [nodeSubclasses]) (by rw [he])
    have hVLV : ¬("VLV" = tag) :=
      fun he => hyp (.vlv, some "VLV") (by simp [nodeSubclasses]) (by rw [he])
    have hSWITCH : ¬("SWITCH" = tag) :=
      fun he => hyp (.switch, some "SWITCH") (by simp [nodeSubclasses]) (by rw [he])
    have hk : kindForTag tag = .generic := by
      simp [kindForTag, nodeSubclasses, hBOX, hUCRH, hUCCO2, hVLVRH, hVLVCO2,
        hCLIMA, hUCBAT, hUC, hVLV, hSWITCH]
    refine ⟨ducoNodeInit .generic number address, ?_, rfl, rfl, rfl, rfl⟩
    simp [addNode, hk]
  · intro k hmem
    simp only [nodeSubclasses, List.mem_cons, List.not_mem_nil, or_false, Prod.mk.injEq,
      Option.some.injEq, reduceCtorEq, and_false, false_or] at hmem
    casesm* _ ∨ _, _ ∧ _
    all_goals subst_vars
    all_goals exact ⟨(addNode_kind io s _ number address).1.trans (by decide),
      (addNode_kind io s _ number address).2.trans (by decide)⟩

/-- Witness for C8: the unknown tag ZZZZ from the spec scenario. -/
theorem claim_c8_witness :
    ∃ node, addNode (fun _ => "") (itfInit false none) "ZZZZ" "99" "999" =
        ({ itfInit false none with
            nodes := (itfInit false none).nodes ++ [node] }, node, true) ∧
      node.kind = .generic ∧ node.parameters = [] ∧
      node.number = "99" ∧ node.address = "999" :=
  (claim_c8 (fun _ => "") (itfInit false none) "ZZZZ" "99" "999").1 (by decide)

/-- C1 (code bug): the store/load round-trip fails on the code.  Under
the `configparser` module the source imports first (Python 3), `_store`
passes the boolean blacklist flag to `ConfigParser.set`, whose value
validation raises `TypeError`, so `store()` crashes at the first device
before writing anything and `load()` can never reproduce the stored
fields.  `_store` raises on every device and every parser state;
evaluated concretely at a freshly discovered device. -/
theorem claim_c1 :
    (∀ (n : DucoNode) (cfg : CfgParser), n.nodeStore cfg = none) ∧
    (∀ (f : String) (n : DucoNode) (rest : List DucoNode),
      interfaceStore (some f) (n :: rest) = .raised) ∧
    interfaceStore (some "duco_network.ini") [ducoNodeInit .uc "1" "2"] = .raised := by
  have hstore : ∀ (n : DucoNode) (cfg : CfgParser), n.nodeStore cfg = none := by
    intro n cfg
    rw [DucoNode.nodeStore]
    cases cfg.addSection ("Node" ++ n.number) with
    | none => rfl
    | some c => rfl
  refine ⟨hstore, ?_, rfl⟩
  intro f n rest
  show (match storeNodes CfgParser.empty (n :: rest) with
        | some cfg => StoreOutcome.stored cfg
        | none => StoreOutcome.raised) = StoreOutcome.raised
  rw [storeNodes, hstore]
  rfl

end Duco
